import Mathlib

/-!
Verification of the schema-typed messaging core
(`src/types.ts`, `src/sender.ts`, `src/receiver.ts`,
`src/receiverWithContext.ts`).

The runtime state of a `Receiver` is a JavaScript `Map` from message keys
to handler functions; we embed it as an association list with unique keys,
with `mapGet` / `mapHas` / `mapSet` mirroring `Map.get` / `Map.has` /
`Map.set` (set replaces in place when the key exists, else appends).
Handlers are functions `α → Except ε β`: `Except.ok` embeds a promise that
resolves, `Except.error` a promise that rejects.  Mutation of the shared
table is embedded as explicit state passing, and "invokes X exactly once
with argument a" is made provable by having each operation return, next to
its result, the list of invocations it performed.
-/

namespace TSMessaging

/-- Embedding of JavaScript `Map.get` on an association list:
returns the value bound to `k`, or `none` (undefined) when absent. -/
def mapGet {κ v : Type} [DecidableEq κ] (m : List (κ × v)) (k : κ) : Option v :=
  match m with
  | [] => none
  | (k', h) :: rest => if k' = k then some h else mapGet rest k

/-- Embedding of JavaScript `Map.has`. -/
def mapHas {κ v : Type} [DecidableEq κ] (m : List (κ × v)) (k : κ) : Bool :=
  (mapGet m k).isSome

/-- Embedding of JavaScript `Map.set`: replaces the binding in place when
the key exists, else appends a new binding at the end. -/
def mapSet {κ v : Type} [DecidableEq κ] (m : List (κ × v)) (k : κ) (h : v) :
    List (κ × v) :=
  match m with
  | [] => [(k, h)]
  | (k', h') :: rest =>
    if k' = k then (k, h) :: rest else (k', h') :: mapSet rest k h

/-- The error thrown by `Receiver.route` on a duplicate key
(`The route on "..." is already exists`), the spec's RouteConflict. -/
inductive RouteError (κ : Type) where
  | conflict : κ → RouteError κ
deriving DecidableEq

/-- `Router<Key, Schema>` from src/receiver.ts: the binder object returned
by `route`, scoped to one key.  Its reference to the shared routing table
is embedded by `Router.to` taking and returning the receiver state. -/
structure Router (κ : Type) where
  key : κ

/-- `Receiver<Schema>` from src/receiver.ts: `routes` is the private
`Map<KeyOf<Schema>, Handler<Schema>>`. -/
structure Receiver (κ α β ε : Type) where
  routes : List (κ × (α → Except ε β))

/-- A fresh receiver: `routes` starts as `new Map()`. -/
def Receiver.empty {κ α β ε : Type} : Receiver κ α β ε := ⟨[]⟩

/-- `Receiver.route` from src/receiver.ts lines 40-45: throws when the key
already has a handler, else returns a binder for the key.  The second
component is the routing table after the call (the method only reads it). -/
def Receiver.route {κ α β ε : Type} [DecidableEq κ] (r : Receiver κ α β ε)
    (k : κ) : Except (RouteError κ) (Router κ) × Receiver κ α β ε :=
  if mapHas r.routes k then (Except.error (RouteError.conflict k), r)
  else (Except.ok ⟨k⟩, r)

/-- `Router.to` from src/receiver.ts lines 30-32:
`this.routes.set(this.key, handler)` on the shared table. -/
def Router.to {κ α β ε : Type} [DecidableEq κ] (rt : Router κ)
    (handler : α → Except ε β) (r : Receiver κ α β ε) : Receiver κ α β ε :=
  ⟨mapSet r.routes rt.key handler⟩

/-- `Receiver.receive` from src/receiver.ts lines 47-53: looks the key up,
returns undefined (`none`) when absent, else the handler's result.  The
second component lists the handler invocations the call performed, as
(handler, argument) pairs. -/
def Receiver.receive {κ α β ε : Type} [DecidableEq κ] (r : Receiver κ α β ε)
    (k : κ) (args : α) :
    Option (Except ε β) × List ((α → Except ε β) × α) :=
  match mapGet r.routes k with
  | none => (none, [])
  | some h => (some (h args), [(h, args)])

/-- `Sender<Schema>` from src/sender.ts: wraps the transport adapter
(`SenderHandler`).  The adapter's result type is kept abstract as `ρ`. -/
structure Sender (κ α ρ : Type) where
  sender : κ → α → ρ

/-- `Sender.send` from src/sender.ts lines 26-33:
`return this.sender(key, args)`.  The second component lists the adapter
invocations the call performed, as (key, argument) pairs. -/
def Sender.send {κ α ρ : Type} (s : Sender κ α ρ) (k : κ) (args : α) :
    ρ × List (κ × α) :=
  (s.sender k args, [(k, args)])

/-- Calling `send(key)` with the argument omitted, as allowed for keys
whose request shape is `undefined`: the rest parameter then binds `args`
to `undefined`, embedded as `none`. -/
def Sender.sendNoArg {κ π ρ : Type} (s : Sender κ (Option π) ρ) (k : κ) :
    ρ × List (κ × Option π) :=
  s.send k none

/-- `RouterWithContext<Key, Schema, Context>` from
src/receiverWithContext.ts: same binder, for context-taking handlers. -/
structure RouterWithContext (κ : Type) where
  key : κ

/-- `ReceiverWithContext<Schema, Context>` from src/receiverWithContext.ts:
the routing table stores handlers taking a context first argument. -/
structure ReceiverWithContext (κ γ α β ε : Type) where
  routes : List (κ × (γ → α → Except ε β))

/-- `ReceiverWithContext.route` from src/receiverWithContext.ts lines
54-61: same duplicate-key check as the base receiver. -/
def ReceiverWithContext.route {κ γ α β ε : Type} [DecidableEq κ]
    (r : ReceiverWithContext κ γ α β ε) (k : κ) :
    Except (RouteError κ) (RouterWithContext κ) ×
      ReceiverWithContext κ γ α β ε :=
  if mapHas r.routes k then (Except.error (RouteError.conflict k), r)
  else (Except.ok ⟨k⟩, r)

/-- `RouterWithContext.to` from src/receiverWithContext.ts lines 40-42. -/
def RouterWithContext.to {κ γ α β ε : Type} [DecidableEq κ]
    (rt : RouterWithContext κ) (handler : γ → α → Except ε β)
    (r : ReceiverWithContext κ γ α β ε) : ReceiverWithContext κ γ α β ε :=
  ⟨mapSet r.routes rt.key handler⟩

/-- `ReceiverWithContext.receive` from src/receiverWithContext.ts lines
63-69: like the base `receive` but threads `ctx` to the handler.  The
invocation log records (handler, context, argument) triples. -/
def ReceiverWithContext.receive {κ γ α β ε : Type} [DecidableEq κ]
    (r : ReceiverWithContext κ γ α β ε) (c : γ) (k : κ) (args : α) :
    Option (Except ε β) × List ((γ → α → Except ε β) × γ × α) :=
  match mapGet r.routes k with
  | none => (none, [])
  | some h => (some (h c args), [(h, c, args)])

/-- Specialises every context-taking handler of a `ReceiverWithContext` at
one context value, yielding the base `Receiver` it simulates. -/
def stripCtx {κ γ α β ε : Type} (c : γ)
    (r : ReceiverWithContext κ γ α β ε) : Receiver κ α β ε :=
  ⟨r.routes.map (fun p => (p.1, p.2 c))⟩

/-- `Duplex<Req, Resp>` from src/types.ts, at the descriptor level: the
(Request, Response) pair of type shapes attached to one key.  `τ` is the
type of shape descriptors. -/
structure Duplex (τ : Type) where
  Request : τ
  Response : τ

/-- `RequestOf<Key, Schema> = Schema[Key]["Request"]` from src/types.ts. -/
def RequestOf {κ τ : Type} (schema : κ → Duplex τ) (k : κ) : τ :=
  (schema k).Request

/-- `ResponseOf<Key, Schema> = Schema[Key]["Response"]` from src/types.ts. -/
def ResponseOf {κ τ : Type} (schema : κ → Duplex τ) (k : κ) : τ :=
  (schema k).Response

/-- `RequestsOf<Schema> = Schema[KeyOf<Schema>]["Request"]` from
src/types.ts: the union over all keys of the Request shapes, embedded as
the indexed family of its members. -/
def RequestsOf {κ τ : Type} (schema : κ → Duplex τ) : κ → τ :=
  fun k => (schema k).Request

/-- `ResponsesOf<Schema> = Schema[KeyOf<Schema>]["Request"]` from
src/types.ts lines 26-27, embedded as written there: the indexed access
reads the `Request` field (the README documents this utility as
extracting the response payload types). -/
def ResponsesOf {κ τ : Type} (schema : κ → Duplex τ) : κ → τ :=
  fun k => (schema k).Request

/-- The keys of the example schema shared by README.md and
example/index.ts. -/
inductive ExKey where
  | mathAdd
  | counterIncrement
  | monitoringPing
deriving DecidableEq

/-- Shape descriptors occurring in the example schema. -/
inductive Ty where
  | objAB
  | number
  | undef
  | voidTy
deriving DecidableEq

/-- The example schema: `math.add: Duplex<{a: number; b: number}, number>`,
`counter.increment: Duplex<number>` and `monitring.ping: Duplex`, with the
defaults `Req = undefined`, `Resp = void` from src/types.ts filled in. -/
def exSchema : ExKey → Duplex Ty
  | ExKey.mathAdd => ⟨Ty.objAB, Ty.number⟩
  | ExKey.counterIncrement => ⟨Ty.number, Ty.voidTy⟩
  | ExKey.monitoringPing => ⟨Ty.undef, Ty.voidTy⟩

/-- After `Map.set m k h`, looking `k` up yields `h`: `set` overwrites any
earlier binding of the key. -/
theorem mapGet_mapSet_self {κ v : Type} [DecidableEq κ]
    (m : List (κ × v)) (k : κ) (h : v) : mapGet (mapSet m k h) k = some h := by
  induction m with
  | nil => simp [mapSet, mapGet]
  | cons p rest ih =>
    by_cases hk : p.1 = k
    · simp [mapSet, mapGet, hk]
    · simpa [mapSet, mapGet, hk] using ih

/-- Lookup commutes with specialising every stored context-taking handler
at one context value (as `stripCtx` does). -/
theorem mapGet_map_apply {κ γ α β ε : Type} [DecidableEq κ]
    (m : List (κ × (γ → α → Except ε β))) (c : γ) (k : κ) :
    mapGet (m.map (fun p => (p.1, p.2 c))) k =
      (mapGet m k).map (fun h => h c) := by
  induction m with
  | nil => simp [mapGet]
  | cons p rest ih =>
    by_cases hk : p.1 = k
    · simp [mapGet, hk]
    · simpa [mapGet, hk] using ih

/-- Insertion commutes with specialising every stored context-taking
handler at one context value. -/
theorem mapSet_map_apply {κ γ α β ε : Type} [DecidableEq κ]
    (m : List (κ × (γ → α → Except ε β))) (c : γ) (k : κ)
    (h : γ → α → Except ε β) :
    (mapSet m k h).map (fun p => (p.1, p.2 c)) =
      mapSet (m.map (fun p => (p.1, p.2 c))) k (h c) := by
  induction m with
  | nil => simp [mapSet]
  | cons p rest ih =>
    by_cases hk : p.1 = k
    · simp [mapSet, hk]
    · simp [mapSet, hk, ih]

/-- Stripping the context changes no keys, so key membership agrees. -/
theorem stripCtx_mapHas {κ γ α β ε : Type} [DecidableEq κ]
    (r : ReceiverWithContext κ γ α β ε) (c : γ) (k : κ) :
    mapHas (stripCtx c r).routes k = mapHas r.routes k := by
  unfold mapHas stripCtx
  rw [mapGet_map_apply]
  cases mapGet r.routes k <;> rfl

/-- Concrete handler used in witnesses: resolves with its argument plus
one. -/
def hSucc : Nat → Except Nat Nat := fun a => Except.ok (a + 1)

/-- Concrete handler used in witnesses: rejects with error 7. -/
def hFail : Nat → Except Nat Nat := fun _ => Except.error 7

/-- Concrete receiver used in witnesses: key 0 routed to `hSucc`. -/
def rcv0 : Receiver Nat Nat Nat Nat := ⟨[(0, hSucc)]⟩

/-- Concrete receiver used in witnesses: key 0 routed to `hFail`. -/
def rcvF : Receiver Nat Nat Nat Nat := ⟨[(0, hFail)]⟩

/-- Concrete sender used in witnesses: its adapter always rejects with
error 3. -/
def sndF : Sender Nat Nat (Except Nat Nat) := ⟨fun _ _ => Except.error 3⟩

/-- Concrete context-taking handler used in witnesses: resolves with
context plus argument. -/
def hCtxAdd : Nat → Nat → Except Nat Nat := fun c a => Except.ok (c + a)

/-- Concrete context receiver used in witnesses: key 0 routed to
`hCtxAdd`. -/
def rcvC : ReceiverWithContext Nat Nat Nat Nat Nat := ⟨[(0, hCtxAdd)]⟩

/-- C1: when key `k` already has a registered handler, a second `route k`
fails with RouteConflict, and afterwards the routing table still holds
exactly the first registration — the failing call changes nothing. -/
theorem route_conflict_preserves_first {κ α β ε : Type} [DecidableEq κ]
    (r : Receiver κ α β ε) (k : κ) (h : α → Except ε β)
    (hreg : mapGet r.routes k = some h) :
    (Receiver.route r k).1 = Except.error (RouteError.conflict k) ∧
    (Receiver.route r k).2 = r ∧
    mapGet (Receiver.route r k).2.routes k = some h := by
  simp [Receiver.route, mapHas, hreg]

/-- Witness for `route_conflict_preserves_first`: on a receiver with key 0
routed to `hSucc`, routing 0 again fails and leaves the table intact. -/
theorem route_conflict_preserves_first_witness :
    mapGet rcv0.routes 0 = some hSucc ∧
    ((Receiver.route rcv0 0).1 = Except.error (RouteError.conflict 0) ∧
     (Receiver.route rcv0 0).2 = rcv0 ∧
     mapGet (Receiver.route rcv0 0).2.routes 0 = some hSucc) :=
  ⟨rfl, route_conflict_preserves_first rcv0 0 hSucc rfl⟩

/-- C2: `receive k args` on a table holding handler `h` at `k` invokes
exactly `h`, exactly once, with exactly `args`, and returns `h args`
unchanged (the invocation log is the single entry `(h, args)`). -/
theorem receive_dispatches_exactly_once {κ α β ε : Type} [DecidableEq κ]
    (r : Receiver κ α β ε) (k : κ) (args : α) (h : α → Except ε β)
    (hreg : mapGet r.routes k = some h) :
    Receiver.receive r k args = (some (h args), [(h, args)]) := by
  simp [Receiver.receive, hreg]

/-- Witness for `receive_dispatches_exactly_once` on the concrete receiver
`rcv0` at key 0 with payload 5. -/
theorem receive_dispatches_exactly_once_witness :
    mapGet rcv0.routes 0 = some hSucc ∧
    Receiver.receive rcv0 0 5 = (some (hSucc 5), [(hSucc, 5)]) :=
  ⟨rfl, receive_dispatches_exactly_once rcv0 0 5 hSucc rfl⟩

/-- C3: `receive k args` on a table with no entry at `k` returns `none`
(absent/undefined), invokes no handler and raises no error, whatever the
payload. -/
theorem receive_absent_on_unregistered {κ α β ε : Type} [DecidableEq κ]
    (r : Receiver κ α β ε) (k : κ) (args : α)
    (hnone : mapGet r.routes k = none) :
    Receiver.receive r k args = (none, []) := by
  simp [Receiver.receive, hnone]

/-- Witness for `receive_absent_on_unregistered`: key 1 is unregistered in
`rcv0`. -/
theorem receive_absent_on_unregistered_witness :
    mapGet rcv0.routes 1 = none ∧
    Receiver.receive rcv0 1 5 = (none, []) :=
  ⟨rfl, receive_absent_on_unregistered rcv0 1 5 rfl⟩

/-- C4: every `send` invokes the adapter exactly once with the pair
`(k, args)` unchanged (first conjunct, covering keys with a declared
request shape), and omitting the argument for a no-payload key forwards
`(k, none)`, i.e. `(k, undefined)` (second conjunct); the invocation log
shows no other effect. -/
theorem send_forwards_unchanged {κ α ρ π ρ2 : Type} :
    (∀ (s : Sender κ α ρ) (k : κ) (args : α),
      Sender.send s k args = (s.sender k args, [(k, args)])) ∧
    (∀ (s : Sender κ (Option π) ρ2) (k : κ),
      Sender.sendNoArg s k = (s.sender k none, [(k, none)])) :=
  ⟨fun _ _ _ => rfl, fun _ _ => rfl⟩

/-- The transport adapter of a sender wired directly to a receiver, as in
example/index.ts: it hands `(key, args)` to `Receiver.receive`. -/
def adapterVia {κ α β ε : Type} [DecidableEq κ] (r : Receiver κ α β ε) :
    κ → α → Option (Except ε β) :=
  fun k args => (Receiver.receive r k args).1

/-- C5: round-trip — with handler `h` registered at `k` and a sender whose
adapter directly calls that receiver's `receive`, `send k x` resolves to
exactly the deferred value `h x`, for every request value `x`. -/
theorem send_receive_roundtrip {κ α β ε : Type} [DecidableEq κ]
    (r : Receiver κ α β ε) (k : κ) (x : α) (h : α → Except ε β)
    (hreg : mapGet r.routes k = some h) :
    (Sender.send ⟨adapterVia r⟩ k x).1 = some (h x) := by
  simp [Sender.send, adapterVia, Receiver.receive, hreg]

/-- Witness for `send_receive_roundtrip` on `rcv0` at key 0 with request
value 5. -/
theorem send_receive_roundtrip_witness :
    mapGet rcv0.routes 0 = some hSucc ∧
    (Sender.send ⟨adapterVia rcv0⟩ 0 5).1 = some (hSucc 5) :=
  ⟨rfl, send_receive_roundtrip rcv0 0 5 hSucc rfl⟩

/-- C6: evaluated on the example schema at key `math.add`, the
`ResponsesOf` utility as written in src/types.ts yields the Request
component (`{a; b}`), not the Response component (`number`) — contradicting
the README, which documents `ResponsesOf` as extracting response payload
types; only the singular `ResponseOf`, used in `send`'s declared return
type, yields the Response component. -/
theorem responsesOf_reads_request_field :
    ResponsesOf exSchema ExKey.mathAdd = (exSchema ExKey.mathAdd).Request ∧
    ResponsesOf exSchema ExKey.mathAdd ≠ (exSchema ExKey.mathAdd).Response ∧
    ResponseOf exSchema ExKey.mathAdd = (exSchema ExKey.mathAdd).Response ∧
    ResponsesOf exSchema ExKey.mathAdd = Ty.objAB := by
  refine ⟨rfl, ?_, rfl, rfl⟩
  decide

/-- C7: a rejection by the registered handler surfaces from `receive`, and
a rejection by the adapter surfaces from `send`, as exactly the same error
value after exactly one invocation — no retry, no wrapping. -/
theorem failure_propagates_unchanged {κ α β ε κ2 α2 β2 ε2 : Type}
    [DecidableEq κ]
    (r : Receiver κ α β ε) (k : κ) (args : α) (h : α → Except ε β) (e : ε)
    (s : Sender κ2 α2 (Except ε2 β2)) (k2 : κ2) (a2 : α2) (e2 : ε2)
    (hreg : mapGet r.routes k = some h) (hfail : h args = Except.error e)
    (hfail2 : s.sender k2 a2 = Except.error e2) :
    Receiver.receive r k args = (some (Except.error e), [(h, args)]) ∧
    Sender.send s k2 a2 = (Except.error e2, [(k2, a2)]) := by
  constructor
  · simp [Receiver.receive, hreg, hfail]
  · simp [Sender.send, hfail2]

/-- Witness for `failure_propagates_unchanged`: the handler `hFail`
rejects with 7 and the adapter of `sndF` rejects with 3; each failure
surfaces unchanged after one invocation. -/
theorem failure_propagates_unchanged_witness :
    (mapGet rcvF.routes 0 = some hFail ∧ hFail 5 = Except.error 7 ∧
      sndF.sender 1 2 = Except.error 3) ∧
    (Receiver.receive rcvF 0 5 = (some (Except.error 7), [(hFail, 5)]) ∧
      Sender.send sndF 1 2 = (Except.error 3, [(1, 2)])) :=
  ⟨⟨rfl, rfl, rfl⟩,
    failure_propagates_unchanged rcvF 0 5 hFail 7 sndF 1 2 3 rfl rfl rfl⟩

/-- C8: on a key with no entry, `route k` succeeds but inserts nothing:
the table is unchanged and a `receive` on `k` before `.to` still returns
absent — entries enter the table only through `Router.to`. -/
theorem route_alone_registers_nothing {κ α β ε : Type} [DecidableEq κ]
    (r : Receiver κ α β ε) (k : κ) (args : α)
    (hnone : mapGet r.routes k = none) :
    (Receiver.route r k).1 = Except.ok ⟨k⟩ ∧
    (Receiver.route r k).2 = r ∧
    Receiver.receive (Receiver.route r k).2 k args = (none, []) := by
  simp [Receiver.route, Receiver.receive, mapHas, hnone]

/-- Witness for `route_alone_registers_nothing` on the empty receiver at
key 0 with payload 5. -/
theorem route_alone_registers_nothing_witness :
    mapGet (Receiver.empty : Receiver Nat Nat Nat Nat).routes 0 = none ∧
    ((Receiver.route (Receiver.empty : Receiver Nat Nat Nat Nat) 0).1 =
        Except.ok ⟨0⟩ ∧
      (Receiver.route (Receiver.empty : Receiver Nat Nat Nat Nat) 0).2 =
        Receiver.empty ∧
      Receiver.receive
        (Receiver.route (Receiver.empty : Receiver Nat Nat Nat Nat) 0).2
        0 5 = (none, [])) :=
  ⟨rfl, route_alone_registers_nothing Receiver.empty 0 5 rfl⟩

/-- C9: `ReceiverWithContext`, specialised at any context value `c` by
`stripCtx`, simulates the base `Receiver` exactly: `route` fails with
RouteConflict on the same keys and likewise leaves the table unchanged,
`to` corresponds to the base `to` with the handler specialised at `c`, and
`receive` with `c` threaded through produces the same dispatch result. -/
theorem receiverWithContext_simulates_receiver {κ γ α β ε : Type}
    [DecidableEq κ]
    (r : ReceiverWithContext κ γ α β ε) (c : γ) (k : κ)
    (hc : γ → α → Except ε β) (args : α) :
    ((ReceiverWithContext.route r k).1 =
        Except.error (RouteError.conflict k) ↔
      (Receiver.route (stripCtx c r) k).1 =
        Except.error (RouteError.conflict k)) ∧
    (ReceiverWithContext.route r k).2 = r ∧
    stripCtx c (RouterWithContext.to ⟨k⟩ hc r) =
      Router.to ⟨k⟩ (hc c) (stripCtx c r) ∧
    (ReceiverWithContext.receive r c k args).1 =
      (Receiver.receive (stripCtx c r) k args).1 := by
  refine ⟨?_, ?_, ?_, ?_⟩
  · rw [Receiver.route, ReceiverWithContext.route, stripCtx_mapHas]
    cases mapHas r.routes k <;> simp
  · rw [ReceiverWithContext.route]
    cases mapHas r.routes k <;> simp
  · simp [RouterWithContext.to, Router.to, stripCtx, mapSet_map_apply]
  · rw [ReceiverWithContext.receive, Receiver.receive]
    rw [show (stripCtx c r).routes = r.routes.map (fun p => (p.1, p.2 c))
      from rfl]
    rw [mapGet_map_apply]
    cases mapGet r.routes k <;> simp

/-- C10: `Router.to` never fails and writes its (key, handler) pair
unconditionally, replacing any existing entry (first conjunct, over an
arbitrary table); in particular two binders for an empty key can both be
obtained — `route` succeeds twice since the first call inserts nothing —
and the second `.to` silently overwrites the first handler. -/
theorem routerTo_overwrites_unconditionally {κ α β ε : Type} [DecidableEq κ]
    (r : Receiver κ α β ε) (k : κ) (h h1 h2 : α → Except ε β)
    (hnone : mapGet r.routes k = none) :
    (∀ (r0 : Receiver κ α β ε),
      mapGet (Router.to ⟨k⟩ h r0).routes k = some h) ∧
    (Receiver.route r k).1 = Except.ok ⟨k⟩ ∧
    (Receiver.route (Receiver.route r k).2 k).1 = Except.ok ⟨k⟩ ∧
    mapGet (Router.to ⟨k⟩ h2
      (Router.to ⟨k⟩ h1 (Receiver.route r k).2)).routes k = some h2 := by
  have hroute : Receiver.route r k = (Except.ok ⟨k⟩, r) := by
    simp [Receiver.route, mapHas, hnone]
  refine ⟨fun r0 => ?_, ?_, ?_, ?_⟩
  · simp [Router.to, mapGet_mapSet_self]
  · rw [hroute]
  · simp [hroute]
  · simp [hroute, Router.to, mapGet_mapSet_self]

/-- Witness for `routerTo_overwrites_unconditionally` on the empty
receiver at key 0, binding `hSucc` then `hFail`: the table ends holding
`hFail`. -/
theorem routerTo_overwrites_unconditionally_witness :
    mapGet (Receiver.empty : Receiver Nat Nat Nat Nat).routes 0 = none ∧
    ((∀ (r0 : Receiver Nat Nat Nat Nat),
        mapGet (Router.to ⟨0⟩ hSucc r0).routes 0 = some hSucc) ∧
      (Receiver.route (Receiver.empty : Receiver Nat Nat Nat Nat) 0).1 =
        Except.ok ⟨0⟩ ∧
      (Receiver.route
        (Receiver.route (Receiver.empty : Receiver Nat Nat Nat Nat) 0).2
        0).1 = Except.ok ⟨0⟩ ∧
      mapGet (Router.to ⟨0⟩ hFail
        (Router.to ⟨0⟩ hSucc
          (Receiver.route (Receiver.empty : Receiver Nat Nat Nat Nat)
            0).2)).routes 0 = some hFail) :=
  ⟨rfl,
    routerTo_overwrites_unconditionally Receiver.empty 0 hSucc hSucc hFail
      rfl⟩

end TSMessaging
